import Mathlib

/-!
Verification development for the eviction-agent repository
(pkg/evictionmanager/eviction_manager.go).

The Go file implements a node-local eviction manager: `taintProcess` is a
periodic loop that reads the node's taint conditions and its resource
availability, issues taint/untaint calls through the eviction client, and
pushes at most one eviction signal per tick into a capacity-1 channel;
`evictOnePod` is the dispatcher that turns one signal into one evict or
label call; `Run` wires both together after starting the condition manager.

The embedding below translates each of those functions into pure Lean
functions.  A tick is a function from the manager state and the tick's
inputs (current time, grace period, the result of `GetTaintConditions`,
and the node condition snapshot) to the new state together with the list
of facade calls made and the list of signals pushed during the tick.
Timestamps and durations are modelled as integers (a fixed time unit,
seconds in the examples); `time.Duration.Minutes()` comparisons are
modelled as exact rational division by 60.

Go identifiers ending in `IO` (the `DiskIO`/`NetworkIO` constants and
struct fields) are rendered `DiskIo`/`NetworkIo` here; everything else
keeps the source's names, including the `Availabel` typos of the Go
`NodeCondition` fields.
-/

namespace EvictionAgent

/-- Node taint flags, mirroring `types.NodeTaintInfo` as used by
`eviction_manager.go` (fields `DiskIO`, `NetworkIO`, `CPU`, `Memory`). -/
structure NodeTaintInfo where
  DiskIo : Bool
  NetworkIo : Bool
  CPU : Bool
  Memory : Bool
deriving DecidableEq, Repr

/-- Per-tick availability snapshot, mirroring the `condition.NodeCondition`
fields read by `taintProcess` (the `Availabel` spelling is the source's). -/
structure NodeCondition where
  NetworkRxAvailabel : Bool
  NetworkTxAvailabel : Bool
  DiskIOAvailable : Bool
  CPUAvailable : Bool
  MemoryAvailable : Bool
deriving DecidableEq, Repr

/-- Taint kinds passed to `SetTaintConditions`, mirroring the `types`
constants `CPUBusy`, `MemBusy`, `DiskIO`, `NetworkIO`. -/
inductive TaintKind where
  | CPUBusy
  | MemBusy
  | DiskIo
  | NetworkIo
deriving DecidableEq, Repr

/-- Second argument of `SetTaintConditions` ("Taint" / "UnTaint"). -/
inductive TaintAction where
  | Taint
  | UnTaint
deriving DecidableEq, Repr

/-- Signal identities carried on the `evictChan` channel, mirroring the
`types` constants pushed by `taintProcess` (`CPUBusy`, `MemBusy`, `DiskIO`,
`NetworkRxBusy`, `NetworkTxBusy`). -/
inductive EvictType where
  | CPUBusy
  | MemBusy
  | DiskIo
  | NetworkRxBusy
  | NetworkTxBusy
deriving DecidableEq, Repr

/-- Calls made through the `evictionclient.Client` facade. -/
inductive FacadeCall where
  | GetTaintConditions
  | SetTaintConditions (kind : TaintKind) (action : TaintAction)
  | EvictOnePod (pod : String)
  | LabelPod (pod : String) (priority : Int) (action : String)
  | ClearAllEvictLabels
deriving DecidableEq, Repr

/-- Mutable fields of the `evictionManager` struct that the taint loop
uses: the cached taint flags and the four last-busy timestamps. -/
structure ManagerState where
  nodeTaint : NodeTaintInfo
  lastTaintDiskIOTime : Int
  lastTaintNetIOTime : Int
  lastTaintCPUTime : Int
  lastTaintMemTime : Int
deriving DecidableEq, Repr

/-- State built by `NewEvictionManager`: all taint flags false, and the
four timestamp fields left at Go's zero value (modelled as 0). -/
def initialManagerState : ManagerState :=
  { nodeTaint := { DiskIo := false, NetworkIo := false, CPU := false, Memory := false }
    lastTaintDiskIOTime := 0
    lastTaintNetIOTime := 0
    lastTaintCPUTime := 0
    lastTaintMemTime := 0 }

/-- Inputs consumed by one iteration of the `taintProcess` loop:
`now` is the tick's wall-clock reading, `unTaintPeriod` the grace period
returned by `GetUnTaintGracePeriod`, `taintReadErr`/`taintReadValue` the
two results of `GetTaintConditions` (both are assigned in the Go multiple
assignment, even on error), and `cond` the result of `GetNodeCondition`. -/
structure TickInput where
  now : Int
  unTaintPeriod : Int
  taintReadErr : Bool
  taintReadValue : NodeTaintInfo
  cond : NodeCondition
deriving DecidableEq, Repr

/-- Model of `duration.Minutes() > unTaintPeriod.Minutes()`: both durations
are converted to minutes (exact rational division by 60) and compared. -/
def minutesGT (d g : Int) : Bool :=
  decide ((d : ℚ) / 60 > (g : ℚ) / 60)

/-- Accumulator threaded through the per-resource blocks of one tick:
the manager state, the facade calls made so far this tick, the signals
pushed so far, and the `isEvicted` flag. -/
structure TickAcc where
  state : ManagerState
  calls : List FacadeCall
  signals : List EvictType
  isEvicted : Bool
deriving DecidableEq, Repr

/-- CPU condition block of `taintProcess`. -/
def cpuProcess (i : TickInput) (a : TickAcc) : TickAcc :=
  if i.cond.CPUAvailable then
    if a.state.nodeTaint.CPU then
      if minutesGT (i.now - a.state.lastTaintCPUTime) i.unTaintPeriod then
        { a with calls := a.calls ++ [FacadeCall.SetTaintConditions TaintKind.CPUBusy TaintAction.UnTaint] }
      else a
    else a
  else
    let a1 := { a with state := { a.state with lastTaintCPUTime := i.now } }
    let a2 :=
      if !a1.state.nodeTaint.CPU then
        { a1 with calls := a1.calls ++ [FacadeCall.SetTaintConditions TaintKind.CPUBusy TaintAction.Taint] }
      else a1
    if !a2.isEvicted then
      { a2 with isEvicted := true, signals := a2.signals ++ [EvictType.CPUBusy] }
    else a2

/-- Memory condition block of `taintProcess`. -/
def memProcess (i : TickInput) (a : TickAcc) : TickAcc :=
  if i.cond.MemoryAvailable then
    if a.state.nodeTaint.Memory then
      if minutesGT (i.now - a.state.lastTaintMemTime) i.unTaintPeriod then
        { a with calls := a.calls ++ [FacadeCall.SetTaintConditions TaintKind.MemBusy TaintAction.UnTaint] }
      else a
    else a
  else
    let a1 := { a with state := { a.state with lastTaintMemTime := i.now } }
    let a2 :=
      if !a1.state.nodeTaint.Memory then
        { a1 with calls := a1.calls ++ [FacadeCall.SetTaintConditions TaintKind.MemBusy TaintAction.Taint] }
      else a1
    if !a2.isEvicted then
      { a2 with isEvicted := true, signals := a2.signals ++ [EvictType.MemBusy] }
    else a2

/-- DiskIO condition block of `taintProcess`. -/
def diskIOProcess (i : TickInput) (a : TickAcc) : TickAcc :=
  if i.cond.DiskIOAvailable then
    if a.state.nodeTaint.DiskIo then
      if minutesGT (i.now - a.state.lastTaintDiskIOTime) i.unTaintPeriod then
        { a with calls := a.calls ++ [FacadeCall.SetTaintConditions TaintKind.DiskIo TaintAction.UnTaint] }
      else a
    else a
  else
    let a1 := { a with state := { a.state with lastTaintDiskIOTime := i.now } }
    let a2 :=
      if !a1.state.nodeTaint.DiskIo then
        { a1 with calls := a1.calls ++ [FacadeCall.SetTaintConditions TaintKind.DiskIo TaintAction.Taint] }
      else a1
    if !a2.isEvicted then
      { a2 with isEvicted := true, signals := a2.signals ++ [EvictType.DiskIo] }
    else a2

/-- NetworkIO condition block of `taintProcess`.  The signal selection
reproduces the source exactly: both sub-channel tests check
`!condition.NetworkTxAvailabel` (lines 252 and 254 of the Go file). -/
def networkIoProcess (i : TickInput) (a : TickAcc) : TickAcc :=
  if i.cond.NetworkRxAvailabel && i.cond.NetworkTxAvailabel then
    if a.state.nodeTaint.NetworkIo then
      if minutesGT (i.now - a.state.lastTaintNetIOTime) i.unTaintPeriod then
        { a with calls := a.calls ++ [FacadeCall.SetTaintConditions TaintKind.NetworkIo TaintAction.UnTaint] }
      else a
    else a
  else
    let a1 := { a with state := { a.state with lastTaintNetIOTime := i.now } }
    let a2 :=
      if !a1.state.nodeTaint.NetworkIo then
        { a1 with calls := a1.calls ++ [FacadeCall.SetTaintConditions TaintKind.NetworkIo TaintAction.Taint] }
      else a1
    if !a2.isEvicted then
      let a3 := { a2 with isEvicted := true }
      if !i.cond.NetworkTxAvailabel then
        { a3 with signals := a3.signals ++ [EvictType.NetworkRxBusy] }
      else if !i.cond.NetworkTxAvailabel then
        { a3 with signals := a3.signals ++ [EvictType.NetworkTxBusy] }
      else a3
    else a2

/-- Guard of the fast path at the top of the loop: every resource
available and every cached taint flag clear. -/
def goodCondition (c : NodeCondition) (nt : NodeTaintInfo) : Bool :=
  c.NetworkRxAvailabel && c.NetworkTxAvailabel && c.DiskIOAvailable &&
    c.CPUAvailable && c.MemoryAvailable &&
    !nt.DiskIo && !nt.NetworkIo && !nt.CPU && !nt.Memory

/-- One iteration of the `taintProcess` loop, as a function from the
manager state and the tick's inputs to the accumulator holding the final
state, the facade calls made (in order) and the signals pushed. -/
def taintProcessTick (s : ManagerState) (i : TickInput) : TickAcc :=
  let s0 := { s with nodeTaint := i.taintReadValue }
  if i.taintReadErr then
    { state := s0, calls := [FacadeCall.GetTaintConditions], signals := [], isEvicted := false }
  else if goodCondition i.cond s0.nodeTaint then
    { state := s0
      calls := [FacadeCall.GetTaintConditions, FacadeCall.ClearAllEvictLabels]
      signals := []
      isEvicted := false }
  else
    networkIoProcess i (diskIOProcess i (memProcess i (cpuProcess i
      { state := s0, calls := [FacadeCall.GetTaintConditions], signals := [], isEvicted := false })))

/-- Result of `conditionManager.ChooseOnePodToEvict`: either an error or a
chosen pod together with the hard-evict flag and the priority. -/
inductive ChooseOnePodResult where
  | fail
  | chosen (podName : String) (isEvict : Bool) (priority : Int)
deriving DecidableEq, Repr

/-- The `evictOnePod` dispatcher: on a choose error it logs and returns
without any facade call; otherwise it makes exactly one call, `EvictOnePod`
when the decision is hard-evict and `LabelPod _ priority "Add"` otherwise. -/
def evictOnePod (r : ChooseOnePodResult) : List FacadeCall :=
  match r with
  | ChooseOnePodResult.fail => []
  | ChooseOnePodResult.chosen pod isEvict priority =>
      if isEvict then [FacadeCall.EvictOnePod pod]
      else [FacadeCall.LabelPod pod priority "Add"]

/-- Folding the taint loop over a finite list of tick inputs. -/
def runTicks (s : ManagerState) (inputs : List TickInput) : ManagerState :=
  inputs.foldl (fun st i => (taintProcessTick st i).state) s

/-- Model of `Run`: if `conditionManager.Start` fails the error is returned
and nothing else happens; otherwise both loops run forever, modelled here
over arbitrary finite traces of tick inputs and dispatcher decisions.  Both
loop bodies are total, so after a successful start the result is always
`ok`, whatever errors the per-tick inputs report. -/
def RunModel (startResult : Except String Unit) (s : ManagerState)
    (inputs : List TickInput) (chooses : List ChooseOnePodResult) :
    Except String (ManagerState × List FacadeCall) :=
  match startResult with
  | Except.error e => Except.error e
  | Except.ok _ => Except.ok (runTicks s inputs, (chooses.map evictOnePod).flatten)

/-! Verification-layer accessors indexing the four per-resource pieces of
state and condition by the taint kind. -/

/-- Taint flag of `NodeTaintInfo` corresponding to a taint kind. -/
def taintFlag (k : TaintKind) (nt : NodeTaintInfo) : Bool :=
  match k with
  | TaintKind.CPUBusy => nt.CPU
  | TaintKind.MemBusy => nt.Memory
  | TaintKind.DiskIo => nt.DiskIo
  | TaintKind.NetworkIo => nt.NetworkIo

/-- Availability test of the resource behind a taint kind, exactly as the
branch conditions of `taintProcess` test it (NetworkIO is available only
when both Rx and Tx are). -/
def resourceAvailable (k : TaintKind) (c : NodeCondition) : Bool :=
  match k with
  | TaintKind.CPUBusy => c.CPUAvailable
  | TaintKind.MemBusy => c.MemoryAvailable
  | TaintKind.DiskIo => c.DiskIOAvailable
  | TaintKind.NetworkIo => c.NetworkRxAvailabel && c.NetworkTxAvailabel

/-- Last-busy timestamp field of the manager state for a taint kind. -/
def lastBusyTime (k : TaintKind) (s : ManagerState) : Int :=
  match k with
  | TaintKind.CPUBusy => s.lastTaintCPUTime
  | TaintKind.MemBusy => s.lastTaintMemTime
  | TaintKind.DiskIo => s.lastTaintDiskIOTime
  | TaintKind.NetworkIo => s.lastTaintNetIOTime

/-- Facade calls contributed by the per-resource block for kind `k`, as a
function of the tick input, the cached taint flag and the last-busy
timestamp for that resource. -/
def resourceCalls (k : TaintKind) (i : TickInput) (flag : Bool) (lastTime : Int) :
    List FacadeCall :=
  if resourceAvailable k i.cond then
    if flag then
      if minutesGT (i.now - lastTime) i.unTaintPeriod then
        [FacadeCall.SetTaintConditions k TaintAction.UnTaint]
      else []
    else []
  else
    if !flag then [FacadeCall.SetTaintConditions k TaintAction.Taint]
    else []

/-- Full list of facade calls of one non-fast-path, non-error tick:
the `GetTaintConditions` read followed by the four blocks' contributions
(`nt` is the taint snapshot the tick read, `s` the pre-tick state). -/
def tickCalls (i : TickInput) (nt : NodeTaintInfo) (s : ManagerState) : List FacadeCall :=
  FacadeCall.GetTaintConditions ::
    (resourceCalls TaintKind.CPUBusy i nt.CPU s.lastTaintCPUTime ++
     resourceCalls TaintKind.MemBusy i nt.Memory s.lastTaintMemTime ++
     resourceCalls TaintKind.DiskIo i nt.DiskIo s.lastTaintDiskIOTime ++
     resourceCalls TaintKind.NetworkIo i nt.NetworkIo s.lastTaintNetIOTime)

/-- Signals pushed by one non-fast-path, non-error tick.  They depend only
on the availability snapshot: the first unavailable resource in evaluation
order wins, and the NetworkIO case reproduces the source's double
`!NetworkTxAvailabel` test (a tick where only Rx is down pushes nothing). -/
def tickSignals (c : NodeCondition) : List EvictType :=
  if !c.CPUAvailable then [EvictType.CPUBusy]
  else if !c.MemoryAvailable then [EvictType.MemBusy]
  else if !c.DiskIOAvailable then [EvictType.DiskIo]
  else if !(c.NetworkRxAvailabel && c.NetworkTxAvailabel) then
    (if !c.NetworkTxAvailabel then [EvictType.NetworkRxBusy] else [])
  else []

/-- Unfolding lemma for the CPU block. -/
lemma cpuProcess_eq (i : TickInput) (a : TickAcc) :
    cpuProcess i a =
      { state := { a.state with lastTaintCPUTime :=
            if i.cond.CPUAvailable then a.state.lastTaintCPUTime else i.now }
        calls := a.calls ++
          resourceCalls TaintKind.CPUBusy i a.state.nodeTaint.CPU a.state.lastTaintCPUTime
        signals := a.signals ++
          (if !i.cond.CPUAvailable && !a.isEvicted then [EvictType.CPUBusy] else [])
        isEvicted := a.isEvicted || !i.cond.CPUAvailable } := by
  obtain ⟨⟨nt, d, n, c, m⟩, cls, sgs, ev⟩ := a
  unfold cpuProcess resourceCalls resourceAvailable
  cases hA : i.cond.CPUAvailable <;> cases hT : nt.CPU <;>
    cases ev <;> simp [hA, hT] <;> try (split <;> simp)

/-- Unfolding lemma for the Memory block. -/
lemma memProcess_eq (i : TickInput) (a : TickAcc) :
    memProcess i a =
      { state := { a.state with lastTaintMemTime :=
            if i.cond.MemoryAvailable then a.state.lastTaintMemTime else i.now }
        calls := a.calls ++
          resourceCalls TaintKind.MemBusy i a.state.nodeTaint.Memory a.state.lastTaintMemTime
        signals := a.signals ++
          (if !i.cond.MemoryAvailable && !a.isEvicted then [EvictType.MemBusy] else [])
        isEvicted := a.isEvicted || !i.cond.MemoryAvailable } := by
  obtain ⟨⟨nt, d, n, c, m⟩, cls, sgs, ev⟩ := a
  unfold memProcess resourceCalls resourceAvailable
  cases hA : i.cond.MemoryAvailable <;> cases hT : nt.Memory <;>
    cases ev <;> simp [hA, hT] <;> try (split <;> simp)

/-- Unfolding lemma for the DiskIO block. -/
lemma diskIOProcess_eq (i : TickInput) (a : TickAcc) :
    diskIOProcess i a =
      { state := { a.state with lastTaintDiskIOTime :=
            if i.cond.DiskIOAvailable then a.state.lastTaintDiskIOTime else i.now }
        calls := a.calls ++
          resourceCalls TaintKind.DiskIo i a.state.nodeTaint.DiskIo a.state.lastTaintDiskIOTime
        signals := a.signals ++
          (if !i.cond.DiskIOAvailable && !a.isEvicted then [EvictType.DiskIo] else [])
        isEvicted := a.isEvicted || !i.cond.DiskIOAvailable } := by
  obtain ⟨⟨nt, d, n, c, m⟩, cls, sgs, ev⟩ := a
  unfold diskIOProcess resourceCalls resourceAvailable
  cases hA : i.cond.DiskIOAvailable <;> cases hT : nt.DiskIo <;>
    cases ev <;> simp [hA, hT] <;> try (split <;> simp)

/-- Unfolding lemma for the NetworkIO block.  Because both sub-channel
tests check `!NetworkTxAvailabel`, a signal is pushed only when Tx itself
is unavailable, and it is then always `NetworkRxBusy`. -/
lemma networkIoProcess_eq (i : TickInput) (a : TickAcc) :
    networkIoProcess i a =
      { state := { a.state with lastTaintNetIOTime :=
            if i.cond.NetworkRxAvailabel && i.cond.NetworkTxAvailabel then
              a.state.lastTaintNetIOTime else i.now }
        calls := a.calls ++
          resourceCalls TaintKind.NetworkIo i a.state.nodeTaint.NetworkIo a.state.lastTaintNetIOTime
        signals := a.signals ++
          (if !(i.cond.NetworkRxAvailabel && i.cond.NetworkTxAvailabel) && !a.isEvicted
              && !i.cond.NetworkTxAvailabel then [EvictType.NetworkRxBusy] else [])
        isEvicted := a.isEvicted ||
          !(i.cond.NetworkRxAvailabel && i.cond.NetworkTxAvailabel) } := by
  obtain ⟨⟨nt, d, n, c, m⟩, cls, sgs, ev⟩ := a
  unfold networkIoProcess resourceCalls resourceAvailable
  cases hRx : i.cond.NetworkRxAvailabel <;> cases hTx : i.cond.NetworkTxAvailabel <;>
    cases hT : nt.NetworkIo <;> cases ev <;> simp [hRx, hTx, hT] <;> try (split <;> simp)

/-- On a `GetTaintConditions` error the tick only records the failed read:
the cached taint value is still overwritten (Go multiple assignment), but
no other call, no signal and no timestamp update happens. -/
lemma taintProcessTick_err (s : ManagerState) (i : TickInput)
    (h : i.taintReadErr = true) :
    taintProcessTick s i =
      { state := { s with nodeTaint := i.taintReadValue }
        calls := [FacadeCall.GetTaintConditions]
        signals := []
        isEvicted := false } := by
  unfold taintProcessTick
  simp [h]

/-- On the fast path (everything available, no cached flag set) the tick
makes exactly the read and the `ClearAllEvictLabels` call. -/
lemma taintProcessTick_good (s : ManagerState) (i : TickInput)
    (hread : i.taintReadErr = false)
    (hgood : goodCondition i.cond i.taintReadValue = true) :
    taintProcessTick s i =
      { state := { s with nodeTaint := i.taintReadValue }
        calls := [FacadeCall.GetTaintConditions, FacadeCall.ClearAllEvictLabels]
        signals := []
        isEvicted := false } := by
  unfold taintProcessTick
  simp [hread, hgood]

/-- Full characterization of a non-error, non-fast-path tick: the final
state refreshes exactly the timestamps of unavailable resources and caches
the read taint value, the calls are `tickCalls`, and the signals are
`tickSignals` of the availability snapshot. -/
lemma taintProcessTick_busy (s : ManagerState) (i : TickInput)
    (hread : i.taintReadErr = false)
    (hgood : goodCondition i.cond i.taintReadValue = false) :
    taintProcessTick s i =
      { state :=
          { nodeTaint := i.taintReadValue
            lastTaintDiskIOTime :=
              if i.cond.DiskIOAvailable then s.lastTaintDiskIOTime else i.now
            lastTaintNetIOTime :=
              if i.cond.NetworkRxAvailabel && i.cond.NetworkTxAvailabel then
                s.lastTaintNetIOTime else i.now
            lastTaintCPUTime :=
              if i.cond.CPUAvailable then s.lastTaintCPUTime else i.now
            lastTaintMemTime :=
              if i.cond.MemoryAvailable then s.lastTaintMemTime else i.now }
        calls := tickCalls i i.taintReadValue s
        signals := tickSignals i.cond
        isEvicted := !i.cond.CPUAvailable || !i.cond.MemoryAvailable ||
          !i.cond.DiskIOAvailable ||
          !(i.cond.NetworkRxAvailabel && i.cond.NetworkTxAvailabel) } := by
  have h1 : taintProcessTick s i =
      networkIoProcess i (diskIOProcess i (memProcess i (cpuProcess i
        { state := { s with nodeTaint := i.taintReadValue }
          calls := [FacadeCall.GetTaintConditions], signals := [], isEvicted := false }))) := by
    unfold taintProcessTick
    simp [hread, hgood]
  rw [h1, cpuProcess_eq, memProcess_eq, diskIOProcess_eq, networkIoProcess_eq]
  simp only [tickCalls, tickSignals, List.append_assoc, List.nil_append, List.cons_append]
  cases hCpu : i.cond.CPUAvailable <;> cases hMem : i.cond.MemoryAvailable <;>
    cases hDisk : i.cond.DiskIOAvailable <;> cases hRx : i.cond.NetworkRxAvailabel <;>
    cases hTx : i.cond.NetworkTxAvailabel <;>
    simp [hCpu, hMem, hDisk, hRx, hTx]

/-- The minutes comparison of two integer durations is just the strict
comparison of the durations: converting both sides to minutes divides both
by the same positive constant. -/
lemma minutesGT_true (d g : Int) : minutesGT d g = true ↔ g < d := by
  unfold minutesGT
  rw [decide_eq_true_iff, gt_iff_lt, div_lt_div_iff_of_pos_right (by norm_num : (0:ℚ) < 60)]
  exact Int.cast_lt

/-- Membership of a `SetTaintConditions` call in one block's contribution:
the kind must match, and the action is determined by availability, the
cached flag and (for untaint) the grace comparison. -/
lemma setTaint_mem_resourceCalls (k k' : TaintKind) (act : TaintAction) (i : TickInput)
    (flag : Bool) (lt : Int) :
    FacadeCall.SetTaintConditions k act ∈ resourceCalls k' i flag lt ↔
      (k = k' ∧ act = TaintAction.UnTaint ∧ resourceAvailable k' i.cond = true ∧
        flag = true ∧ minutesGT (i.now - lt) i.unTaintPeriod = true) ∨
      (k = k' ∧ act = TaintAction.Taint ∧ resourceAvailable k' i.cond = false ∧
        flag = false) := by
  unfold resourceCalls
  cases hA : resourceAvailable k' i.cond <;> cases flag <;> cases act <;>
    simp [hA] <;> (try tauto)

/-- Membership of an untaint call in the full per-tick call list. -/
lemma untaint_mem_tickCalls (k : TaintKind) (i : TickInput) (nt : NodeTaintInfo)
    (s : ManagerState) :
    FacadeCall.SetTaintConditions k TaintAction.UnTaint ∈ tickCalls i nt s ↔
      resourceAvailable k i.cond = true ∧ taintFlag k nt = true ∧
        minutesGT (i.now - lastBusyTime k s) i.unTaintPeriod = true := by
  cases k <;>
    simp [tickCalls, taintFlag, lastBusyTime, setTaint_mem_resourceCalls]

/-- Membership of a taint call in the full per-tick call list. -/
lemma taint_mem_tickCalls (k : TaintKind) (i : TickInput) (nt : NodeTaintInfo)
    (s : ManagerState) :
    FacadeCall.SetTaintConditions k TaintAction.Taint ∈ tickCalls i nt s ↔
      resourceAvailable k i.cond = false ∧ taintFlag k nt = false := by
  cases k <;>
    simp [tickCalls, taintFlag, lastBusyTime, setTaint_mem_resourceCalls]

/-- When the resource behind `k` is unavailable, the fast path cannot
fire: `goodCondition` requires every availability bit. -/
lemma goodCondition_false_of_unavailable (k : TaintKind) (c : NodeCondition)
    (nt : NodeTaintInfo) (h : resourceAvailable k c = false) :
    goodCondition c nt = false := by
  cases k <;> simp only [resourceAvailable] at h
  case CPUBusy => simp [goodCondition, h]
  case MemBusy => simp [goodCondition, h]
  case DiskIo => simp [goodCondition, h]
  case NetworkIo =>
    cases hRx : c.NetworkRxAvailabel <;> cases hTx : c.NetworkTxAvailabel <;>
      simp [goodCondition, hRx, hTx] <;> simp [hRx, hTx] at h

/-- When the cached flag behind `k` is set, the fast path cannot fire:
`goodCondition` requires every flag clear. -/
lemma goodCondition_false_of_flag (k : TaintKind) (c : NodeCondition)
    (nt : NodeTaintInfo) (h : taintFlag k nt = true) :
    goodCondition c nt = false := by
  cases k <;> simp [taintFlag] at h <;> simp [goodCondition, h]

/-! Environment model for multi-tick runs.  The manager's `GetTaintConditions`
read is answered from a cluster taint record, and every facade call is
applied to that record: `SetTaintConditions` flips the corresponding flag,
all other calls leave the taints unchanged.  This models the "facade calls
succeed and are reflected by the next read" hypothesis of the run-level
claims. -/

/-- Effect of one successful facade call on the cluster's taint record. -/
def applyCall (nt : NodeTaintInfo) (c : FacadeCall) : NodeTaintInfo :=
  match c with
  | FacadeCall.SetTaintConditions k act =>
      let v := match act with
        | TaintAction.Taint => true
        | TaintAction.UnTaint => false
      match k with
      | TaintKind.CPUBusy => { nt with CPU := v }
      | TaintKind.MemBusy => { nt with Memory := v }
      | TaintKind.DiskIo => { nt with DiskIo := v }
      | TaintKind.NetworkIo => { nt with NetworkIo := v }
  | _ => nt

/-- Effect of a list of successful facade calls on the cluster taints. -/
def applyCalls (nt : NodeTaintInfo) (cs : List FacadeCall) : NodeTaintInfo :=
  cs.foldl applyCall nt

/-- Per-tick environment inputs for a run in which `GetTaintConditions`
always succeeds: the clock reading, the grace period and the condition
snapshot. -/
structure EnvInput where
  now : Int
  unTaintPeriod : Int
  cond : NodeCondition
deriving DecidableEq, Repr

/-- One tick against the cluster: the read is answered from the cluster
record, and the tick's calls are then applied to it. -/
def envTick (p : ManagerState × NodeTaintInfo) (e : EnvInput) :
    (ManagerState × NodeTaintInfo) × TickAcc :=
  let a := taintProcessTick p.1
    { now := e.now, unTaintPeriod := e.unTaintPeriod,
      taintReadErr := false, taintReadValue := p.2, cond := e.cond }
  ((a.state, applyCalls p.2 a.calls), a)

/-- A finite run of ticks against the cluster, collecting each tick's
accumulator. -/
def envRun (p : ManagerState × NodeTaintInfo) (es : List EnvInput) :
    (ManagerState × NodeTaintInfo) × List TickAcc :=
  match es with
  | [] => (p, [])
  | e :: rest =>
      let q := envTick p e
      let r := envRun q.1 rest
      (r.1, q.2 :: r.2)

/-- Number of taint calls for kind `k` in a call list. -/
def countTaintCalls (k : TaintKind) (cs : List FacadeCall) : Nat :=
  cs.count (FacadeCall.SetTaintConditions k TaintAction.Taint)

/-- One successful call touches the flag of `k` only when it is a
`SetTaintConditions` for `k` itself. -/
lemma taintFlag_applyCall (k k' : TaintKind) (act : TaintAction) (nt : NodeTaintInfo) :
    taintFlag k (applyCall nt (FacadeCall.SetTaintConditions k' act)) =
      if k = k' then
        (match act with
          | TaintAction.Taint => true
          | TaintAction.UnTaint => false)
      else taintFlag k nt := by
  cases k <;> cases k' <;> cases act <;> simp [applyCall, taintFlag]

/-- Calls other than `SetTaintConditions` leave the cluster taints alone. -/
lemma applyCall_other (nt : NodeTaintInfo) (c : FacadeCall)
    (h : ∀ k act, c ≠ FacadeCall.SetTaintConditions k act) :
    applyCall nt c = nt := by
  cases c <;> first
    | rfl
    | exact absurd rfl (h _ _)

/-- Taint-call count contributed by one block: one call exactly when the
resource is unavailable and the cached flag is clear. -/
lemma countTaintCalls_resourceCalls (k k' : TaintKind) (i : TickInput)
    (flag : Bool) (lt : Int) :
    countTaintCalls k (resourceCalls k' i flag lt) =
      if k = k' ∧ resourceAvailable k' i.cond = false ∧ flag = false then 1 else 0 := by
  unfold countTaintCalls resourceCalls
  cases hA : resourceAvailable k' i.cond <;> cases flag <;> by_cases hk : k = k' <;>
    simp [hA, hk] <;> (try split) <;> simp [List.count_singleton]

/-- Taint-call counts add over concatenation. -/
lemma countTaintCalls_append (k : TaintKind) (xs ys : List FacadeCall) :
    countTaintCalls k (xs ++ ys) = countTaintCalls k xs + countTaintCalls k ys := by
  unfold countTaintCalls
  exact List.count_append _ _ _

/-- Taint-call count of a whole tick (non-error, non-fast-path): exactly
one call for `k` when the resource is unavailable and the read flag is
clear, zero otherwise. -/
lemma countTaintCalls_tickCalls (k : TaintKind) (i : TickInput) (nt : NodeTaintInfo)
    (s : ManagerState) :
    countTaintCalls k (tickCalls i nt s) =
      if resourceAvailable k i.cond = false ∧ taintFlag k nt = false then 1 else 0 := by
  unfold tickCalls
  have hGet : ∀ cs, countTaintCalls k (FacadeCall.GetTaintConditions :: cs) =
      countTaintCalls k cs := by
    intro cs
    simp [countTaintCalls, List.count_cons]
  rw [hGet, countTaintCalls_append, countTaintCalls_append, countTaintCalls_append,
    countTaintCalls_resourceCalls, countTaintCalls_resourceCalls,
    countTaintCalls_resourceCalls, countTaintCalls_resourceCalls]
  cases k <;> simp [taintFlag]

/-- Applying a block's calls for a different kind never touches `k`'s
cluster flag. -/
lemma taintFlag_applyCalls_other (k k' : TaintKind) (hk : ¬ k = k') (nt : NodeTaintInfo)
    (i : TickInput) (flag : Bool) (lt : Int) :
    taintFlag k (applyCalls nt (resourceCalls k' i flag lt)) = taintFlag k nt := by
  unfold applyCalls resourceCalls
  cases hA : resourceAvailable k' i.cond <;> cases flag <;>
    simp [taintFlag_applyCall, hk] <;> (try split) <;> simp [taintFlag_applyCall, hk]

/-- Applying `k`'s own block when the resource is unavailable leaves the
cluster flag set: either it was already set (no call), or the taint call
sets it.  The block's flag argument is required to agree with the current
cluster flag, which is how `taintProcess` feeds the freshly read value. -/
lemma taintFlag_applyCalls_own (k : TaintKind) (nt : NodeTaintInfo) (i : TickInput)
    (flag : Bool) (lt : Int) (hun : resourceAvailable k i.cond = false)
    (hflag : flag = taintFlag k nt) :
    taintFlag k (applyCalls nt (resourceCalls k i flag lt)) = true := by
  subst hflag
  unfold applyCalls resourceCalls
  rw [hun]
  cases hF : taintFlag k nt <;> simp [taintFlag_applyCall, hF]

/-- Folding calls distributes over concatenation. -/
lemma applyCalls_append (nt : NodeTaintInfo) (xs ys : List FacadeCall) :
    applyCalls nt (xs ++ ys) = applyCalls (applyCalls nt xs) ys := by
  unfold applyCalls
  exact List.foldl_append _ _ _ _

/-- One unavailable tick against the cluster: the tick makes one taint
call for `k` exactly when the cluster flag was clear, and afterwards the
cluster flag for `k` is set either way. -/
lemma envTick_unavailable (k : TaintKind) (p : ManagerState × NodeTaintInfo) (e : EnvInput)
    (hun : resourceAvailable k e.cond = false) :
    countTaintCalls k (envTick p e).2.calls = (if taintFlag k p.2 = true then 0 else 1) ∧
    taintFlag k (envTick p e).1.2 = true := by
  have hgood : goodCondition e.cond p.2 = false :=
    goodCondition_false_of_unavailable k _ _ hun
  have hb := taintProcessTick_busy p.1
    { now := e.now, unTaintPeriod := e.unTaintPeriod,
      taintReadErr := false, taintReadValue := p.2, cond := e.cond } rfl hgood
  unfold envTick
  rw [hb]
  constructor
  · rw [countTaintCalls_tickCalls]
    simp only [hun]
    cases hF : taintFlag k p.2 <;> simp [hF]
  · show taintFlag k (applyCalls p.2 (tickCalls _ p.2 p.1)) = true
    unfold tickCalls
    rw [show ∀ cs, applyCalls p.2 (FacadeCall.GetTaintConditions :: cs) = applyCalls p.2 cs
        from fun cs => rfl]
    rw [applyCalls_append, applyCalls_append, applyCalls_append]
    cases k with
    | CPUBusy =>
        rw [taintFlag_applyCalls_other TaintKind.CPUBusy TaintKind.NetworkIo (by simp),
          taintFlag_applyCalls_other TaintKind.CPUBusy TaintKind.DiskIo (by simp),
          taintFlag_applyCalls_other TaintKind.CPUBusy TaintKind.MemBusy (by simp)]
        exact taintFlag_applyCalls_own TaintKind.CPUBusy p.2 _ _ _ hun rfl
    | MemBusy =>
        rw [taintFlag_applyCalls_other TaintKind.MemBusy TaintKind.NetworkIo (by simp),
          taintFlag_applyCalls_other TaintKind.MemBusy TaintKind.DiskIo (by simp)]
        refine taintFlag_applyCalls_own TaintKind.MemBusy _ _ _ _ hun ?_
        rw [taintFlag_applyCalls_other TaintKind.MemBusy TaintKind.CPUBusy (by simp)]
        rfl
    | DiskIo =>
        rw [taintFlag_applyCalls_other TaintKind.DiskIo TaintKind.NetworkIo (by simp)]
        refine taintFlag_applyCalls_own TaintKind.DiskIo _ _ _ _ hun ?_
        rw [taintFlag_applyCalls_other TaintKind.DiskIo TaintKind.MemBusy (by simp),
          taintFlag_applyCalls_other TaintKind.DiskIo TaintKind.CPUBusy (by simp)]
        rfl
    | NetworkIo =>
        refine taintFlag_applyCalls_own TaintKind.NetworkIo _ _ _ _ hun ?_
        rw [taintFlag_applyCalls_other TaintKind.NetworkIo TaintKind.DiskIo (by simp),
          taintFlag_applyCalls_other TaintKind.NetworkIo TaintKind.MemBusy (by simp),
          taintFlag_applyCalls_other TaintKind.NetworkIo TaintKind.CPUBusy (by simp)]
        rfl

/-- Over a contiguous run of ticks in which resource `k` is unavailable
throughout, the number of taint calls for `k` is one when the cluster flag
started clear (and the run is non-empty) and zero when it started set; the
cluster flag for `k` is set at the end of any non-empty such run. -/
lemma envRun_busy (k : TaintKind) (es : List EnvInput) :
    ∀ p : ManagerState × NodeTaintInfo,
      (∀ e ∈ es, resourceAvailable k e.cond = false) →
      (((envRun p es).2.map (fun a => countTaintCalls k a.calls)).sum =
        (if taintFlag k p.2 = true then 0 else min es.length 1)) ∧
      (¬ es = [] → taintFlag k (envRun p es).1.2 = true) := by
  induction es with
  | nil =>
      intro p _
      simp [envRun]
  | cons e rest ih =>
      intro p hbusy
      have hun : resourceAvailable k e.cond = false := hbusy e (by simp)
      have hrest : ∀ e' ∈ rest, resourceAvailable k e'.cond = false :=
        fun e' he' => hbusy e' (List.mem_cons_of_mem _ he')
      obtain ⟨hcount, hflag⟩ := envTick_unavailable k p e hun
      obtain ⟨ihsum, ihflag⟩ := ih (envTick p e).1 hrest
      constructor
      · simp only [envRun, List.map_cons, List.sum_cons]
        rw [hcount, ihsum, hflag]
        cases hF : taintFlag k p.2 <;> simp [Nat.min_def]
      · intro _
        simp only [envRun]
        by_cases hr : rest = []
        · subst hr
          simpa [envRun] using hflag
        · exact ihflag hr

/-- Call-list corollary of the busy-tick characterization. -/
lemma taintProcessTick_busy_calls (s : ManagerState) (i : TickInput)
    (hread : i.taintReadErr = false)
    (hgood : goodCondition i.cond i.taintReadValue = false) :
    (taintProcessTick s i).calls = tickCalls i i.taintReadValue s := by
  rw [taintProcessTick_busy s i hread hgood]

/-- Signal-list corollary of the busy-tick characterization. -/
lemma taintProcessTick_busy_signals (s : ManagerState) (i : TickInput)
    (hread : i.taintReadErr = false)
    (hgood : goodCondition i.cond i.taintReadValue = false) :
    (taintProcessTick s i).signals = tickSignals i.cond := by
  rw [taintProcessTick_busy s i hread hgood]

/-- A tick never pushes more than one signal. -/
lemma tickSignals_length (c : NodeCondition) : (tickSignals c).length ≤ 1 := by
  unfold tickSignals
  split_ifs <;> simp

/-! Claim theorems. -/

/-- Tick input exercising the Rx-only network case: NetworkRx unavailable,
NetworkTx available, every other resource available, read successful with
all taint flags clear. -/
def rxOnlyInput : TickInput :=
  { now := 100, unTaintPeriod := 30, taintReadErr := false
    taintReadValue := { DiskIo := false, NetworkIo := false, CPU := false, Memory := false }
    cond := { NetworkRxAvailabel := false, NetworkTxAvailabel := true
              DiskIOAvailable := true, CPUAvailable := true, MemoryAvailable := true } }

/-- Claim C1, evaluation at the failing input: on a tick where NetworkRx is
unavailable, NetworkTx is available and no higher-priority resource is
busy, the code pushes no eviction signal at all — both sub-channel tests
check `!NetworkTxAvailabel`, so the Rx-only case matches neither branch —
even though it does observe the pressure (it issues the NetworkIO taint
call and consumes the tick's signal slot).  The claimed `NetworkRxBusy`
signal is never emitted. -/
theorem networkRxOnly_emits_no_signal :
    (taintProcessTick initialManagerState rxOnlyInput).signals = [] ∧
    FacadeCall.SetTaintConditions TaintKind.NetworkIo TaintAction.Taint ∈
      (taintProcessTick initialManagerState rxOnlyInput).calls ∧
    (taintProcessTick initialManagerState rxOnlyInput).isEvicted = true := by
  decide

/-- Tick input for the fast path: everything available, read successful
with all flags clear. -/
def goodInput : TickInput :=
  { now := 100, unTaintPeriod := 30, taintReadErr := false
    taintReadValue := { DiskIo := false, NetworkIo := false, CPU := false, Memory := false }
    cond := { NetworkRxAvailabel := true, NetworkTxAvailabel := true
              DiskIOAvailable := true, CPUAvailable := true, MemoryAvailable := true } }

/-- Claim C2, counterexample: on a fast-path tick (every resource available
and all flags clear in a successful read) `ClearAllEvictLabels` is not the
only facade call of the tick — the unconditional `GetTaintConditions` read
at the top of the loop is a facade call too. -/
theorem fastPath_extra_read_call_cex :
    goodInput.taintReadErr = false ∧
    goodCondition goodInput.cond goodInput.taintReadValue = true ∧
    ¬ (∀ c ∈ (taintProcessTick initialManagerState goodInput).calls,
        c = FacadeCall.ClearAllEvictLabels) := by
  decide

/-- Claim C2, amended: on every fast-path tick the calls are exactly the
per-tick `GetTaintConditions` read followed by `ClearAllEvictLabels` — in
particular no taint, untaint, evict or label call — and no signal is
pushed. -/
theorem fastPath_calls_spec (s : ManagerState) (i : TickInput)
    (hread : i.taintReadErr = false)
    (hgood : goodCondition i.cond i.taintReadValue = true) :
    (taintProcessTick s i).calls =
      [FacadeCall.GetTaintConditions, FacadeCall.ClearAllEvictLabels] ∧
    (taintProcessTick s i).signals = [] := by
  rw [taintProcessTick_good s i hread hgood]
  exact ⟨rfl, rfl⟩

/-- Witness for `fastPath_calls_spec` at a concrete fast-path tick. -/
theorem fastPath_calls_spec_witness :
    (taintProcessTick initialManagerState goodInput).calls =
      [FacadeCall.GetTaintConditions, FacadeCall.ClearAllEvictLabels] ∧
    (taintProcessTick initialManagerState goodInput).signals = [] :=
  fastPath_calls_spec initialManagerState goodInput (by decide) (by decide)

/-- Tick input with CPU unavailable and a successful all-clear read. -/
def cpuBusyInput : TickInput :=
  { now := 100, unTaintPeriod := 30, taintReadErr := false
    taintReadValue := { DiskIo := false, NetworkIo := false, CPU := false, Memory := false }
    cond := { NetworkRxAvailabel := true, NetworkTxAvailabel := true
              DiskIOAvailable := true, CPUAvailable := false, MemoryAvailable := true } }

/-- Claim C5, counterexample: on a tick that issues a (successful) CPU
taint call, the cached `nodeTaint` flags are not set to true afterwards —
the tick ends with the flag still false, because `taintProcess` never
writes `nodeTaint` after a `SetTaintConditions` call; the flag only changes
when the next tick's `GetTaintConditions` read returns it. -/
theorem taint_leaves_cached_flag_cex :
    FacadeCall.SetTaintConditions TaintKind.CPUBusy TaintAction.Taint ∈
      (taintProcessTick initialManagerState cpuBusyInput).calls ∧
    (taintProcessTick initialManagerState cpuBusyInput).state.nodeTaint.CPU = false := by
  decide

/-- Claim C5, amended: `nodeTaint` is overwritten at the start of every
tick with the value returned by `GetTaintConditions` (also on a read
error, via the Go multiple assignment) and is not mutated again during the
tick; taint/untaint calls never update it directly. -/
theorem nodeTaint_equals_read_value (s : ManagerState) (i : TickInput) :
    (taintProcessTick s i).state.nodeTaint = i.taintReadValue := by
  by_cases hE : i.taintReadErr = true
  · rw [taintProcessTick_err s i hE]
  · have hE' : i.taintReadErr = false := by simpa using hE
    by_cases hG : goodCondition i.cond i.taintReadValue = true
    · rw [taintProcessTick_good s i hE' hG]
    · have hG' : goodCondition i.cond i.taintReadValue = false := by simpa using hG
      rw [taintProcessTick_busy s i hE' hG']

/-- Claim C7: the dispatcher makes no facade call on a victim-selection
error, exactly one `LabelPod _ priority "Add"` call (and never an evict
call) on a soft decision, exactly one `EvictOnePod` call on a hard-evict
decision, and never more than one action attempt per signal. -/
theorem dispatcher_one_action (pod : String) (priority : Int) :
    evictOnePod ChooseOnePodResult.fail = [] ∧
    evictOnePod (ChooseOnePodResult.chosen pod false priority) =
      [FacadeCall.LabelPod pod priority "Add"] ∧
    FacadeCall.EvictOnePod pod ∉
      evictOnePod (ChooseOnePodResult.chosen pod false priority) ∧
    evictOnePod (ChooseOnePodResult.chosen pod true priority) =
      [FacadeCall.EvictOnePod pod] ∧
    ∀ r : ChooseOnePodResult, (evictOnePod r).length ≤ 1 := by
  refine ⟨rfl, rfl, by simp [evictOnePod], rfl, ?_⟩
  intro r
  cases r with
  | fail => simp [evictOnePod]
  | chosen p b pr => cases b <;> simp [evictOnePod]

/-- Claim C9: on a `GetTaintConditions` error the tick is skipped — the
only facade call of the tick is the failed read itself (so no taint,
untaint or `ClearAllEvictLabels` call), no signal is pushed, and none of
the four last-busy timestamps changes. -/
theorem read_error_skips_tick (s : ManagerState) (i : TickInput)
    (h : i.taintReadErr = true) :
    (taintProcessTick s i).calls = [FacadeCall.GetTaintConditions] ∧
    (taintProcessTick s i).signals = [] ∧
    (taintProcessTick s i).state.lastTaintCPUTime = s.lastTaintCPUTime ∧
    (taintProcessTick s i).state.lastTaintMemTime = s.lastTaintMemTime ∧
    (taintProcessTick s i).state.lastTaintDiskIOTime = s.lastTaintDiskIOTime ∧
    (taintProcessTick s i).state.lastTaintNetIOTime = s.lastTaintNetIOTime := by
  rw [taintProcessTick_err s i h]
  exact ⟨rfl, rfl, rfl, rfl, rfl, rfl⟩

/-- Witness for `read_error_skips_tick` at a concrete failing read. -/
theorem read_error_skips_tick_witness :
    (taintProcessTick initialManagerState
      { cpuBusyInput with taintReadErr := true }).calls =
      [FacadeCall.GetTaintConditions] ∧
    (taintProcessTick initialManagerState
      { cpuBusyInput with taintReadErr := true }).signals = [] := by
  have h := read_error_skips_tick initialManagerState
    { cpuBusyInput with taintReadErr := true } (by decide)
  exact ⟨h.1, h.2.1⟩

/-- Claim C3: for a resource whose flag was read as tainted and which is
observed available this tick, the untaint call is issued exactly when the
elapsed time since the stored last-busy timestamp strictly exceeds the
grace period; and on every tick where the resource is observed
unavailable, the last-busy timestamp is refreshed to the tick's time. -/
theorem untaint_grace_hysteresis (s : ManagerState) (i : TickInput) (r : TaintKind)
    (hread : i.taintReadErr = false) :
    (taintFlag r i.taintReadValue = true → resourceAvailable r i.cond = true →
      (FacadeCall.SetTaintConditions r TaintAction.UnTaint ∈ (taintProcessTick s i).calls ↔
        i.unTaintPeriod < i.now - lastBusyTime r s)) ∧
    (resourceAvailable r i.cond = false →
      lastBusyTime r (taintProcessTick s i).state = i.now) := by
  constructor
  · intro hflag havail
    have hgood := goodCondition_false_of_flag r i.cond i.taintReadValue hflag
    rw [taintProcessTick_busy_calls s i hread hgood, untaint_mem_tickCalls]
    simp [havail, hflag, minutesGT_true]
  · intro hun
    have hgood := goodCondition_false_of_unavailable r i.cond i.taintReadValue hun
    rw [taintProcessTick_busy s i hread hgood]
    cases r <;> simp only [resourceAvailable] at hun <;> simp [lastBusyTime, hun]

/-- Tainted-CPU state at `t0 = 100` with the tick arriving 29 seconds
later under a 30-second grace period. -/
def grace29State : ManagerState :=
  { initialManagerState with lastTaintCPUTime := 100 }

/-- Tick input at `t0 + 29` with grace period 30, CPU read as tainted and
observed available. -/
def grace29Input : TickInput :=
  { now := 129, unTaintPeriod := 30, taintReadErr := false
    taintReadValue := { DiskIo := false, NetworkIo := false, CPU := true, Memory := false }
    cond := { NetworkRxAvailabel := true, NetworkTxAvailabel := true
              DiskIOAvailable := true, CPUAvailable := true, MemoryAvailable := true } }

/-- Witness for `untaint_grace_hysteresis`: with a 30 s grace period and
the last busy observation 29 s ago, no untaint call is issued. -/
theorem untaint_grace_hysteresis_witness :
    FacadeCall.SetTaintConditions TaintKind.CPUBusy TaintAction.UnTaint ∉
      (taintProcessTick grace29State grace29Input).calls := by
  intro hmem
  have h := ((untaint_grace_hysteresis grace29State grace29Input TaintKind.CPUBusy
    (by decide)).1 (by decide) (by decide)).mp hmem
  revert h
  decide

/-- Claim C4: every tick pushes at most one signal across all resources
combined, and when several resources are unavailable the pushed signal is
the first unavailable one in the evaluation order CPU, Memory, DiskIO,
NetworkIO — later pressured resources push nothing this tick. -/
theorem at_most_one_signal_priority (s : ManagerState) (i : TickInput) :
    (taintProcessTick s i).signals.length ≤ 1 ∧
    (i.taintReadErr = false →
      ((i.cond.CPUAvailable = false →
          (taintProcessTick s i).signals = [EvictType.CPUBusy]) ∧
       (i.cond.CPUAvailable = true → i.cond.MemoryAvailable = false →
          (taintProcessTick s i).signals = [EvictType.MemBusy]) ∧
       (i.cond.CPUAvailable = true → i.cond.MemoryAvailable = true →
          i.cond.DiskIOAvailable = false →
          (taintProcessTick s i).signals = [EvictType.DiskIo]) ∧
       (i.cond.CPUAvailable = true → i.cond.MemoryAvailable = true →
          i.cond.DiskIOAvailable = true → i.cond.NetworkTxAvailabel = false →
          (taintProcessTick s i).signals = [EvictType.NetworkRxBusy]))) := by
  constructor
  · by_cases hE : i.taintReadErr = true
    · rw [taintProcessTick_err s i hE]
      simp
    · have hE' : i.taintReadErr = false := by simpa using hE
      by_cases hG : goodCondition i.cond i.taintReadValue = true
      · rw [taintProcessTick_good s i hE' hG]
        simp
      · have hG' : goodCondition i.cond i.taintReadValue = false := by simpa using hG
        rw [taintProcessTick_busy_signals s i hE' hG']
        exact tickSignals_length i.cond
  · intro hread
    refine ⟨?_, ?_, ?_, ?_⟩
    · intro hCpu
      have hgood := goodCondition_false_of_unavailable TaintKind.CPUBusy i.cond
        i.taintReadValue (by simpa [resourceAvailable] using hCpu)
      rw [taintProcessTick_busy_signals s i hread hgood]
      simp [tickSignals, hCpu]
    · intro hCpu hMem
      have hgood := goodCondition_false_of_unavailable TaintKind.MemBusy i.cond
        i.taintReadValue (by simpa [resourceAvailable] using hMem)
      rw [taintProcessTick_busy_signals s i hread hgood]
      simp [tickSignals, hCpu, hMem]
    · intro hCpu hMem hDisk
      have hgood := goodCondition_false_of_unavailable TaintKind.DiskIo i.cond
        i.taintReadValue (by simpa [resourceAvailable] using hDisk)
      rw [taintProcessTick_busy_signals s i hread hgood]
      simp [tickSignals, hCpu, hMem, hDisk]
    · intro hCpu hMem hDisk hTx
      have hgood := goodCondition_false_of_unavailable TaintKind.NetworkIo i.cond
        i.taintReadValue (by simp [resourceAvailable, hTx])
      rw [taintProcessTick_busy_signals s i hread hgood]
      simp [tickSignals, hCpu, hMem, hDisk, hTx]

/-- Tick input with CPU, Memory and DiskIO all unavailable. -/
def threeBusyInput : TickInput :=
  { now := 100, unTaintPeriod := 30, taintReadErr := false
    taintReadValue := { DiskIo := false, NetworkIo := false, CPU := false, Memory := false }
    cond := { NetworkRxAvailabel := true, NetworkTxAvailabel := true
              DiskIOAvailable := false, CPUAvailable := false, MemoryAvailable := false } }

/-- Witness for `at_most_one_signal_priority`: with CPU, Memory and DiskIO
all unavailable, exactly the CPU signal is pushed. -/
theorem at_most_one_signal_priority_witness :
    (taintProcessTick initialManagerState threeBusyInput).signals = [EvictType.CPUBusy] :=
  ((at_most_one_signal_priority initialManagerState threeBusyInput).2 (by decide)).1 (by decide)

/-- Claim C8: the model of `Run` returns an error exactly when the
condition manager's `Start` fails; after a successful start it processes
any finite trace of tick inputs and dispatcher decisions — whatever
per-tick errors they contain — to a normal result, never an error. -/
theorem run_error_only_from_start (start : Except String Unit) (s : ManagerState)
    (inputs : List TickInput) (chooses : List ChooseOnePodResult) :
    (∀ e, RunModel start s inputs chooses = Except.error e ↔ start = Except.error e) ∧
    (start = Except.ok () →
      RunModel start s inputs chooses =
        Except.ok (runTicks s inputs, (chooses.map evictOnePod).flatten)) := by
  cases start <;> simp [RunModel]

/-- Witness for `run_error_only_from_start` in both directions: a failed
start propagates exactly its error; a successful start yields a normal
result on a trace containing a read error and a failed victim selection. -/
theorem run_error_only_from_start_witness :
    RunModel (Except.error "condition manager start failed") initialManagerState [] [] =
      Except.error "condition manager start failed" ∧
    RunModel (Except.ok ()) initialManagerState
      [{ cpuBusyInput with taintReadErr := true }] [ChooseOnePodResult.fail] =
      Except.ok (runTicks initialManagerState [{ cpuBusyInput with taintReadErr := true }], []) := by
  constructor
  · exact (run_error_only_from_start (Except.error "condition manager start failed")
      initialManagerState [] []).1 "condition manager start failed" |>.mpr rfl
  · exact (run_error_only_from_start (Except.ok ()) initialManagerState
      [{ cpuBusyInput with taintReadErr := true }] [ChooseOnePodResult.fail]).2 rfl

/-- Claim C10: the last-busy timestamps start at the zero value, so on the
very first tick, if the cluster reports a resource tainted while it is
observed available, the untaint call is issued immediately — the elapsed
time measured from the zero timestamp exceeds any (shorter) grace period. -/
theorem zero_init_first_tick_untaint (i : TickInput) (r : TaintKind)
    (hread : i.taintReadErr = false)
    (hflag : taintFlag r i.taintReadValue = true)
    (havail : resourceAvailable r i.cond = true)
    (hnow : i.unTaintPeriod < i.now) :
    lastBusyTime r initialManagerState = 0 ∧
    FacadeCall.SetTaintConditions r TaintAction.UnTaint ∈
      (taintProcessTick initialManagerState i).calls := by
  have hzero : lastBusyTime r initialManagerState = 0 := by
    cases r <;> rfl
  refine ⟨hzero, ?_⟩
  have hgood := goodCondition_false_of_flag r i.cond i.taintReadValue hflag
  rw [taintProcessTick_busy_calls _ i hread hgood, untaint_mem_tickCalls]
  refine ⟨havail, hflag, ?_⟩
  rw [minutesGT_true, hzero]
  omega

/-- Tick input for the first tick after a restart: NetworkIO reported
tainted by the cluster, both network directions available. -/
def restartInput : TickInput :=
  { now := 1000000, unTaintPeriod := 30, taintReadErr := false
    taintReadValue := { DiskIo := false, NetworkIo := true, CPU := false, Memory := false }
    cond := { NetworkRxAvailabel := true, NetworkTxAvailabel := true
              DiskIOAvailable := true, CPUAvailable := true, MemoryAvailable := true } }

/-- Witness for `zero_init_first_tick_untaint`: the first tick after a
restart immediately untaints a cluster-reported NetworkIO taint. -/
theorem zero_init_first_tick_untaint_witness :
    FacadeCall.SetTaintConditions TaintKind.NetworkIo TaintAction.UnTaint ∈
      (taintProcessTick initialManagerState restartInput).calls :=
  (zero_init_first_tick_untaint restartInput TaintKind.NetworkIo
    (by decide) (by decide) (by decide) (by decide)).2

/-- Cluster taint record with no flag set. -/
def clearTaint : NodeTaintInfo :=
  { DiskIo := false, NetworkIo := false, CPU := false, Memory := false }

/-- Availability snapshot with only CPU unavailable. -/
def cpuDownCond : NodeCondition :=
  { NetworkRxAvailabel := true, NetworkTxAvailabel := true
    DiskIOAvailable := true, CPUAvailable := false, MemoryAvailable := true }

/-- Availability snapshot with everything available. -/
def allUpCond : NodeCondition :=
  { NetworkRxAvailabel := true, NetworkTxAvailabel := true
    DiskIOAvailable := true, CPUAvailable := true, MemoryAvailable := true }

/-- Environment tick 1 of the C6 trace: CPU busy at t = 10. -/
def runE1 : EnvInput := { now := 10, unTaintPeriod := 30, cond := cpuDownCond }

/-- Environment tick 2 of the C6 trace: CPU recovered at t = 20 (still
inside the 30 s grace period, so no untaint). -/
def runE2 : EnvInput := { now := 20, unTaintPeriod := 30, cond := allUpCond }

/-- Environment tick 3 of the C6 trace: CPU busy again at t = 30. -/
def runE3 : EnvInput := { now := 30, unTaintPeriod := 30, cond := cpuDownCond }

/-- Manager state after tick 1 of the C6 trace. -/
def c6s1 : ManagerState :=
  { nodeTaint := clearTaint, lastTaintDiskIOTime := 0, lastTaintNetIOTime := 0
    lastTaintCPUTime := 10, lastTaintMemTime := 0 }

/-- Cluster taints after tick 1 of the C6 trace: CPU tainted. -/
def c6c1 : NodeTaintInfo :=
  { DiskIo := false, NetworkIo := false, CPU := true, Memory := false }

/-- Manager state after tick 2 of the C6 trace: the cached flags now show
the CPU taint; the timestamps are unchanged because everything was
available. -/
def c6s2 : ManagerState :=
  { nodeTaint := c6c1, lastTaintDiskIOTime := 0, lastTaintNetIOTime := 0
    lastTaintCPUTime := 10, lastTaintMemTime := 0 }

/-- Claim C6, counterexample: with all facade calls succeeding, the CPU
resource is unavailable on tick 1, available on tick 2 (no untaint: the
grace period has not elapsed, so the node stays tainted) and unavailable
again on tick 3.  Tick 3 is by itself a maximal contiguous run of
unavailable ticks, yet it issues zero taint calls — the cluster flag is
still set, so the busy run from tick 3 on never gets its own taint call.
"Exactly once per maximal contiguous run of unavailable ticks" fails. -/
theorem taint_run_missing_call_cex :
    ((envRun (initialManagerState, clearTaint) [runE1, runE2, runE3]).2.map
      (fun a => countTaintCalls TaintKind.CPUBusy a.calls)) = [1, 0, 0] ∧
    resourceAvailable TaintKind.CPUBusy runE1.cond = false ∧
    resourceAvailable TaintKind.CPUBusy runE2.cond = true ∧
    resourceAvailable TaintKind.CPUBusy runE3.cond = false := by
  refine ⟨?_, by decide, by decide, by decide⟩
  have hm10 : minutesGT (10 : Int) 30 = false := by
    rw [Bool.eq_false_iff]
    intro hgt
    rw [minutesGT_true] at hgt
    omega
  have hm20 : minutesGT ((20 : Int) - 10) 30 = false := by
    rw [show ((20 : Int) - 10) = 10 by norm_num]
    exact hm10
  have h1a : (envTick (initialManagerState, clearTaint) runE1).1 = (c6s1, c6c1) := by
    decide
  have h1c : countTaintCalls TaintKind.CPUBusy
      (envTick (initialManagerState, clearTaint) runE1).2.calls = 1 := by
    decide
  have h2 : envTick (c6s1, c6c1) runE2 =
      ((c6s2, c6c1),
       { state := c6s2, calls := [FacadeCall.GetTaintConditions], signals := []
         isEvicted := false }) := by
    simp [envTick, taintProcessTick, goodCondition, cpuProcess, memProcess,
      diskIOProcess, networkIoProcess, applyCalls, applyCall,
      c6s1, c6s2, c6c1, runE2, allUpCond, clearTaint, hm10, hm20]
  have h3 : countTaintCalls TaintKind.CPUBusy (envTick (c6s2, c6c1) runE3).2.calls = 0 := by
    decide
  simp only [envRun, List.map_cons, List.map_nil, h1a, h2, h1c, h3]
  simp [countTaintCalls]

/-- Claim C6, amended: over any contiguous run of ticks in which resource
`r` is observed unavailable throughout (and all facade calls succeed and
are reflected by the next read), the taint call for `r` is issued at most
once, and exactly once when the cluster's taint flag for `r` is clear at
the start of the run — i.e. once per busy-edge as observed via the flag,
never once per tick. -/
theorem taint_count_per_busy_run (k : TaintKind) (p : ManagerState × NodeTaintInfo)
    (es : List EnvInput)
    (hbusy : ∀ e ∈ es, resourceAvailable k e.cond = false) :
    ((envRun p es).2.map (fun a => countTaintCalls k a.calls)).sum =
      (if taintFlag k p.2 = true then 0 else min es.length 1) :=
  (envRun_busy k es p hbusy).1

/-- Witness for `taint_count_per_busy_run`: a one-tick busy run starting
from a clear cluster flag issues exactly one CPU taint call. -/
theorem taint_count_per_busy_run_witness :
    ((envRun (initialManagerState, clearTaint) [runE1]).2.map
      (fun a => countTaintCalls TaintKind.CPUBusy a.calls)).sum = 1 := by
  rw [taint_count_per_busy_run TaintKind.CPUBusy (initialManagerState, clearTaint) [runE1]
    (by decide)]
  decide

end EvictionAgent
